import Mathlib

/-!
Verification of the webmesh node agent against its specification.

This file shallowly embeds the relevant source functions:
- `pkg/services/membership/leave.go` — the `Leave` membership handler;
- the admin service's `GetNetworkACL` / `PutNetworkACL` handlers and
  `allEmpty` helper;
- the builtin `ipam` plugin: `Allocate`, `allocateV4`, `allocateV6`,
  `next32`, `random64`, `isStaticAllocation`.

External collaborators that are not part of the repository's sources
(the raft consensus library, the key-value store behind the typed
accessors, gRPC context helpers, `netip` parsing, `math/rand`) are
modelled as oracle inputs or, where the specification pins down their
behavior, are modelled from the spec and marked as such.

Machine integers: Go's addresses are modelled as `Nat` with explicit
`2 ^ 32` / `2 ^ 128` bounds where overflow matters.  Fallible Go code
returns `Except`.  gRPC handlers returning `(resp, error)` become
`Except GoError resp`.
-/

set_option autoImplicit false

namespace Webmesh

/-- gRPC status codes used by the handlers under verification, plus
`Unknown`, the code gRPC assigns to a plain (non-status) Go error. -/
inductive GrpcCode where
  | OK
  | InvalidArgument
  | NotFound
  | PermissionDenied
  | FailedPrecondition
  | Internal
  | Unknown
deriving DecidableEq

/-- A Go error value as produced by the sources: either a gRPC status
error (`status.Error` / `status.Errorf`) or a plain error built with
`fmt.Errorf`. -/
inductive GoError where
  | grpcStatus (code : GrpcCode) (msg : String)
  | errorf (msg : String)
deriving DecidableEq

/-- The gRPC code a returned error surfaces with: a status error keeps
its code; a plain error is mapped to `Unknown` by `status.FromError`. -/
def goErrGrpcCode : GoError → GrpcCode
  | .grpcStatus c _ => c
  | .errorf _ => .Unknown

/-- Decidable equality for `Except`, used to evaluate concrete runs. -/
instance exceptDecEq {ε α : Type} [DecidableEq ε] [DecidableEq α] :
    DecidableEq (Except ε α) := fun
  | .ok a, .ok b =>
    if h : a = b then .isTrue (by rw [h]) else .isFalse (by intro hc; cases hc; exact h rfl)
  | .error a, .error b =>
    if h : a = b then .isTrue (by rw [h]) else .isFalse (by intro hc; cases hc; exact h rfl)
  | .ok _, .error _ => .isFalse (by intro hc; cases hc)
  | .error _, .ok _ => .isFalse (by intro hc; cases hc)

/-! ## Membership: the Leave handler (`pkg/services/membership/leave.go`) -/

/-- One feature/port pair of a peer record.  Modelled from the spec:
"a bitmask/set of enabled features each mapped to a listen port"
(the `peers` package itself is not among the sources). -/
structure FeaturePort where
  feature : Nat
  port : Nat
deriving DecidableEq

/-- The numeric tag of `v1.Feature_RAFT`.  Only its identity matters to
the embedding, not its concrete wire value. -/
def FEATURE_RAFT : Nat := 2

/-- A peer record with exactly the fields `Leave` reads.  Modelled from
the spec (§3 Node/Peer record) and the field accesses in `leave.go`;
the `peers` package is not among the sources.  The private addresses
are kept in their string form (`PrivateAddrV4().String()`). -/
structure Peer where
  id : String
  primaryEndpoint : String
  wireguardEndpoints : List String
  zoneAwarenessId : String
  publicKey : String
  privateIpv4 : String
  privateIpv6 : String
  features : List FeaturePort
  joinedAt : Nat
deriving DecidableEq

/-- The `Node.PortFor(feature)`: the port of the first matching feature, 0
when the feature is absent.  Modelled from the spec: a zero port means
the feature (here: the raft consensus role) is not enabled. -/
def Peer.PortFor (p : Peer) (feat : Nat) : Nat :=
  match p.features.find? (fun fp => fp.feature == feat) with
  | some fp => fp.port
  | none => 0

/-- Event types of `v1.Event` as used by the plugin fan-out. -/
inductive EventType where
  | NODE_JOIN
  | NODE_LEAVE
  | NODE_UPDATE
deriving DecidableEq

/-- The `v1.MeshNode` payload of an emitted event. -/
structure MeshNode where
  id : String
  primaryEndpoint : String
  wireguardEndpoints : List String
  zoneAwarenessId : String
  publicKey : String
  privateIpv4 : String
  privateIpv6 : String
  features : List FeaturePort
  joinedAt : Nat
deriving DecidableEq

/-- A `v1.Event` fanned out to watching plugins. -/
structure Event where
  type : EventType
  node : MeshNode
deriving DecidableEq

/-- Consensus/store side effects issued by `Leave`, in program order:
`raft.RemoveServer`, `raft.Barrier` (timeout in seconds), and the
peers-DB delete. -/
inductive Op where
  | removeServer (id : String)
  | barrier (timeoutSecs : Nat)
  | deletePeer (id : String)
deriving DecidableEq

/-- The inputs of one `Leave` call: the request id plus the oracle
outcomes of the context helpers (`context.IsInNetwork`,
`rbac.IsSecure`, `leaderproxy.ProxiedFor`,
`context.AuthenticatedCallerFrom`, `raft.IsLeader`) and of the two
fallible consensus/store operations. -/
structure LeaveIn where
  inNetwork : Bool
  reqId : String
  isLeader : Bool
  secure : Bool
  proxiedFor : Option String
  authPeer : Option String
  removeOk : Bool
  deleteOk : Bool
  hasPlugins : Bool
  hasWatchers : Bool
deriving DecidableEq

/-- The observable outcome of one `Leave` call: the gRPC result, the
peers DB after the call, the ordered trace of consensus/store
operations issued, and the event handed to the plugin fan-out
goroutine (if any). -/
structure LeaveOut where
  result : Except GoError Unit
  peers : List (String × Peer)
  trace : List Op
  emitted : Option Event
deriving DecidableEq

/-- The identity check of `Leave` (leave.go lines 48-62): when security
is enabled the proxied-for identity, or else the authenticated peer
identity, must equal the target id. -/
def authCheck (pin : LeaveIn) : Option GoError :=
  if !pin.secure then none
  else
    match pin.proxiedFor with
    | some proxiedFor =>
      if proxiedFor ≠ pin.reqId then
        some (.grpcStatus .PermissionDenied
          ("proxied for " ++ proxiedFor ++ ", not " ++ pin.reqId))
      else none
    | none =>
      match pin.authPeer with
      | some peer =>
        if peer ≠ pin.reqId then
          some (.grpcStatus .PermissionDenied
            ("peer id " ++ peer ++ ", not " ++ pin.reqId))
        else none
      | none => some (.grpcStatus .PermissionDenied
          "no peer authentication info in context")

/-- The `peers.Get` (absence = `ErrNodeNotFound`), modelled from the spec's
state-store contract over an association list keyed by node id. -/
def lookupPeer (db : List (String × Peer)) (id : String) : Option Peer :=
  (db.find? (fun kv => kv.1 == id)).map (fun kv => kv.2)

/-- Append the deferred `Barrier(ctx, 15s)` at function return when it
was registered (leave.go lines 75-77 use `defer`, so the barrier runs
when `Leave` returns, after everything that follows). -/
def appendBarrier (tr : List Op) (deferred : Bool) : List Op :=
  if deferred then tr ++ [Op.barrier 15] else tr

/-- The `v1.Event` built by `Leave`'s fan-out goroutine (leave.go lines
94-109): type `NODE_JOIN` carrying the record read before deletion. -/
def leaveEmittedEvent (leaving : Peer) : Event :=
  { type := EventType.NODE_JOIN
    node :=
      { id := leaving.id
        primaryEndpoint := leaving.primaryEndpoint
        wireguardEndpoints := leaving.wireguardEndpoints
        zoneAwarenessId := leaving.zoneAwarenessId
        publicKey := leaving.publicKey
        privateIpv4 := leaving.privateIpv4
        privateIpv6 := leaving.privateIpv6
        features := leaving.features
        joinedAt := leaving.joinedAt } }

/-- The tail of `Leave` from the peers-DB delete onward (leave.go lines
85-116).  `deferredBarrier` records whether the raft branch registered
the deferred barrier. -/
def leaveFinish (pin : LeaveIn) (db : List (String × Peer)) (leaving : Peer)
    (tr : List Op) (deferredBarrier : Bool) : LeaveOut :=
  if !pin.deleteOk then
    { result := .error (.grpcStatus .Internal "failed to delete peer")
      peers := db
      trace := appendBarrier (tr ++ [Op.deletePeer pin.reqId]) deferredBarrier
      emitted := none }
  else
    { result := .ok ()
      peers := db.filter (fun kv => kv.1 != pin.reqId)
      trace := appendBarrier (tr ++ [Op.deletePeer pin.reqId]) deferredBarrier
      emitted :=
        if pin.hasPlugins && pin.hasWatchers then some (leaveEmittedEvent leaving)
        else none }

/-- The `Server.Leave` (leave.go lines 32-117), as a function from the call
inputs and the current peers DB to the observable outcome. -/
def leave (pin : LeaveIn) (db : List (String × Peer)) : LeaveOut :=
  if !pin.inNetwork then
    { result := .error (.grpcStatus .PermissionDenied "request is not in-network")
      peers := db, trace := [], emitted := none }
  else if pin.reqId = "" then
    { result := .error (.grpcStatus .InvalidArgument "id is required")
      peers := db, trace := [], emitted := none }
  else if !pin.isLeader then
    { result := .error (.grpcStatus .FailedPrecondition "not leader")
      peers := db, trace := [], emitted := none }
  else
    match authCheck pin with
    | some e => { result := .error e, peers := db, trace := [], emitted := none }
    | none =>
      match lookupPeer db pin.reqId with
      | none => { result := .ok (), peers := db, trace := [], emitted := none }
      | some leaving =>
        if leaving.PortFor FEATURE_RAFT != 0 then
          if !pin.removeOk then
            { result := .error (.grpcStatus .Internal "failed to remove raft member")
              peers := db
              trace := [Op.removeServer pin.reqId, Op.barrier 15]
              emitted := none }
          else
            leaveFinish pin db leaving [Op.removeServer pin.reqId] true
        else
          leaveFinish pin db leaving [] false

/-! ## Admin service: network ACL handlers -/

/-- A `v1.NetworkACL`: a name, an action, and the four match sets. -/
structure NetworkACL where
  name : String
  action : Nat
  sourceCidrs : List String
  destinationCidrs : List String
  sourceNodes : List String
  destinationNodes : List String
deriving DecidableEq

/-- The `allEmpty` from the admin service: true iff every one of the given
string slices has length zero. -/
def allEmpty (ss : List (List String)) : Bool :=
  ss.all (fun s => s.length == 0)

/-- The ACL store behind the `networking` accessors.  Modelled from the
spec: the store keys ACLs by name (the primary key) and the typed
accessors round-trip (`decode(encode(x)) == x`), so it behaves as a
name-keyed map; the `networking` package is not among the sources. -/
def AclDB : Type := List (String × NetworkACL)

/-- Store write of an ACL under its name (spec-modelled, see `AclDB`). -/
def putACL (db : AclDB) (acl : NetworkACL) : AclDB :=
  (acl.name, acl) :: (db : List (String × NetworkACL)).filter (fun kv => kv.1 != acl.name)

/-- Store read of an ACL by name (spec-modelled, see `AclDB`);
`none` is `networking.ErrACLNotFound`. -/
def getACL (db : AclDB) (name : String) : Option NetworkACL :=
  ((db : List (String × NetworkACL)).find? (fun kv => kv.1 == name)).map (fun kv => kv.2)

/-- Oracle outcomes of the admin handlers' collaborators:
`Consensus().IsLeader()`, the RBAC evaluation for the request,
`storageutil.IsValidID`, membership in `v1.ACLAction_name`, and
`types.ValidateACL` (`none` = valid, `some msg` = invalid), none of
which are among the sources. -/
structure AdminEnv where
  isLeader : Bool
  rbacAllows : Bool
  isValidID : String → Bool
  validActionName : Nat → Bool
  validateACL : NetworkACL → Option String

/-- The `Server.PutNetworkACL` of the admin service, returning the gRPC
result and the store after the call. -/
def PutNetworkACL (env : AdminEnv) (db : AclDB) (acl : NetworkACL) :
    Except GoError Unit × AclDB :=
  if !env.isLeader then
    (.error (.grpcStatus .FailedPrecondition "not the leader"), db)
  else if acl.name = "" then
    (.error (.grpcStatus .InvalidArgument "acl name is required"), db)
  else if !env.isValidID acl.name then
    (.error (.grpcStatus .InvalidArgument "acl name must be a valid ID"), db)
  else if !env.rbacAllows then
    (.error (.grpcStatus .PermissionDenied
      "caller does not have permission to put network acls"), db)
  else if !env.validActionName acl.action then
    (.error (.grpcStatus .InvalidArgument "invalid acl action"), db)
  else if allEmpty [acl.destinationCidrs, acl.sourceCidrs,
      acl.sourceNodes, acl.destinationNodes] then
    (.error (.grpcStatus .InvalidArgument
      "at least one of destination_cidrs, source_cidrs, source_nodes, or destination_nodes must be set"), db)
  else
    match env.validateACL acl with
    | some msg => (.error (.grpcStatus .InvalidArgument msg), db)
    | none => (.ok (), putACL db acl)

/-- The `Server.GetNetworkACL` of the admin service. -/
def GetNetworkACL (db : AclDB) (name : String) : Except GoError NetworkACL :=
  if name = "" then
    .error (.grpcStatus .InvalidArgument "acl name is required")
  else
    match getACL db name with
    | none => .error (.grpcStatus .NotFound
        ("network acl \"" ++ name ++ "\" not found"))
    | some acl => .ok acl

/-! ## IPAM plugin (`pkg/plugins/builtins/ipam`) -/

/-- An IPv4 `netip.Prefix`: a 32-bit address (as `Nat`) and a bit
count.  `netip.ParsePrefix` keeps the address exactly as written (it
does not mask host bits; `Masked()` is a separate method). -/
structure Pfx4 where
  addr : Nat
  bits : Nat
deriving DecidableEq

/-- An IPv6 `netip.Prefix`: a 128-bit address (as `Nat`), a bit count,
and the `Addr().Is6()` flag. -/
structure Pfx6 where
  addr : Nat
  bits : Nat
  is6 : Bool
deriving DecidableEq

/-- The `netip.Prefix.Contains` for the IPv4 model: the address is valid
(an address incremented past 255.255.255.255 becomes the invalid
`netip.Addr`, which no prefix contains) and its top `bits` bits agree
with the prefix address's top bits. -/
def contains4 (c : Pfx4) (ip : Nat) : Bool :=
  decide (ip < 2 ^ 32) && (ip >>> (32 - c.bits) == c.addr >>> (32 - c.bits))

/-- The network (masked) address of an IPv4 prefix, i.e.
`Prefix.Masked().Addr()`. -/
def networkAddr (c : Pfx4) : Nat :=
  (c.addr >>> (32 - c.bits)) <<< (32 - c.bits)

/-- Dotted-quad string of an IPv4 address (`netip.Addr.String`). -/
def addr4Str (a : Nat) : String :=
  toString (a >>> 24 % 256) ++ "." ++ toString (a >>> 16 % 256) ++ "."
    ++ toString (a >>> 8 % 256) ++ "." ++ toString (a % 256)

/-- The `netip.Prefix.String` for the IPv4 model. -/
def pfx4Str (c : Pfx4) : String :=
  addr4Str c.addr ++ "/" ++ toString c.bits

/-- Lowercase hex string of one 16-bit IPv6 group, without leading
zeros. -/
def hexGroupStr (g : Nat) : String :=
  String.mk (Nat.toDigits 16 g)

/-- The eight 16-bit groups of a 128-bit IPv6 address, most significant
first. -/
def v6Groups (a : Nat) : List Nat :=
  (List.range 8).map (fun i => (a >>> ((7 - i) * 16)) % 2 ^ 16)

/-- Length of the run of zero groups starting at index `i`. -/
def zeroRunLenAt (gs : List Nat) (i : Nat) : Nat :=
  ((gs.drop i).takeWhile (fun g => g == 0)).length

/-- The leftmost longest run (of length at least 2) of zero groups, as
`(start, length)` — the run RFC 5952 compresses to a double colon. -/
def bestZeroRun (gs : List Nat) : Option (Nat × Nat) :=
  let best := (List.range gs.length).foldl
    (fun acc i => if zeroRunLenAt gs i > acc.2 then (i, zeroRunLenAt gs i) else acc)
    (0, 0)
  if best.2 ≥ 2 then some best else none

/-- RFC 5952 text form of a 128-bit IPv6 address (`netip.Addr.String`;
the IPv4-mapped special form is not modelled — no theorem below
depends on the text form of a v6 address). -/
def addr6Str (a : Nat) : String :=
  let gs := v6Groups a
  match bestZeroRun gs with
  | none => String.intercalate ":" (gs.map hexGroupStr)
  | some se =>
    String.intercalate ":" ((gs.take se.1).map hexGroupStr) ++ "::"
      ++ String.intercalate ":" ((gs.drop (se.1 + se.2)).map hexGroupStr)

/-- The `netip.Prefix.String` for the IPv6 model. -/
def pfx6Str (c : Pfx6) : String :=
  addr6Str c.addr ++ "/" ++ toString c.bits

/-- The static assignment maps of the ipam plugin's `Config` (node
name → address string). -/
structure IpamConfig where
  staticIPv4 : List (String × String)
  staticIPv6 : List (String × String)
deriving DecidableEq

/-- Go map lookup over the decoded config maps. -/
def lookupStr (m : List (String × String)) (k : String) : Option String :=
  (m.find? (fun kv => kv.1 == k)).map (fun kv => kv.2)

/-- The `Plugin.isStaticAllocation` on an IPv4 candidate: some configured
static IPv4 string equals the candidate's `String()` form.  (The
source is a single function branching on `ip.Addr().Is4()`; it is
split by family here.) -/
def isStaticAllocation4 (cfg : IpamConfig) (pfx : Pfx4) : Bool :=
  cfg.staticIPv4.any (fun kv => kv.2 == pfx4Str pfx)

/-- The `Plugin.isStaticAllocation` on an IPv6 candidate. -/
def isStaticAllocation6 (cfg : IpamConfig) (pfx : Pfx6) : Bool :=
  cfg.staticIPv6.any (fun kv => kv.2 == pfx6Str pfx)

/-- The loop of `Plugin.next32`, with explicit fuel.  Starting from
`ip`, while the subnet contains `ip`: return `ip/32` if it is neither
in the allocated set nor statically reserved, else step to the next
address.  Leaving the subnet (or the 2^32 fuel, which the address
space bounds first) yields the exhaustion error. -/
def next32Loop (set : List Pfx4) (isStatic : Pfx4 → Bool) (c : Pfx4) :
    Nat → Nat → Except String Pfx4
  | 0, _ => .error ("no more addresses in " ++ pfx4Str c)
  | fuel + 1, ip =>
    if contains4 c ip then
      if !(set.contains (Pfx4.mk ip 32)) && !(isStatic (Pfx4.mk ip 32)) then
        .ok (Pfx4.mk ip 32)
      else
        next32Loop set isStatic c fuel (ip + 1)
    else .error ("no more addresses in " ++ pfx4Str c)

/-- The `Plugin.next32`: scan starting at `cidr.Addr().Next()` — the
prefix's address plus one, which is the network address plus one only
when the prefix is in masked form. -/
def next32 (set : List Pfx4) (isStatic : Pfx4 → Bool) (c : Pfx4) :
    Except String Pfx4 :=
  next32Loop set isStatic c (2 ^ 32) (c.addr + 1)

/-- The address produced by `random64`: the two bytes at offsets 6-7
(bits 48-63 from the top) are replaced by the drawn 16-bit value
(`uint16(r.Intn(65536))`, the cast being the `% 2 ^ 16`); all other
bits of the /48 prefix's address are kept. -/
def random64Addr (gp : Pfx6) (r : Nat) : Nat :=
  (gp.addr >>> 80) * 2 ^ 80 + (r % 2 ^ 16) * 2 ^ 64 + gp.addr % 2 ^ 64

/-- The `random64`: requires an IPv6 /48 prefix, then returns the /64 built
by `random64Addr` from one PRNG draw (the draw is passed explicitly;
`math/rand.Intn(65536)` yields a value in `[0, 65536)`). -/
def random64 (gp : Pfx6) (r : Nat) : Except String Pfx6 :=
  if !gp.is6 then .error "prefix must be IPv6"
  else if gp.bits != 48 then .error "prefix must be /48"
  else .ok (Pfx6.mk (random64Addr gp r) 64 true)

/-- The retry loop of `allocateV6`: up to `fuel` tries (the source uses
`maxTries = 100`), draw a candidate with `random64` and return it
unless it is taken (already allocated or statically reserved). -/
def allocV6Loop (isTaken : Pfx6 → Bool) (rnd : Nat → Nat) (gp : Pfx6) :
    Nat → Nat → Except String Pfx6
  | _, 0 => .error "failed to find available IPv6 after 100 tries"
  | tries, fuel + 1 =>
    match random64 gp (rnd tries) with
    | .error e => .error ("random IPv6: " ++ e)
    | .ok pfx =>
      if !isTaken pfx then .ok pfx
      else allocV6Loop isTaken rnd gp (tries + 1) fuel

/-- The collision-avoiding core of `allocateV6`, with the allocated-set
and static-reservation test folded into `isTaken` and the PRNG draws
given by the oracle `rnd` (draw number → value). -/
def allocateV6core (isTaken : Pfx6 → Bool) (rnd : Nat → Nat) (gp : Pfx6) :
    Except String Pfx6 :=
  allocV6Loop isTaken rnd gp 0 100

/-- The `v1.AllocateIPRequest.IPVersion`. -/
inductive IpVersion where
  | unspecified
  | v4
  | v6
deriving DecidableEq

/-- A `v1.AllocateIPRequest`. -/
structure AllocateIPRequest where
  nodeId : String
  subnet : String
  version : IpVersion
deriving DecidableEq

/-- A `v1.AllocatedIP` response. -/
structure AllocatedIP where
  ip : String
deriving DecidableEq

/-- A peer record as read by the ipam plugin over its query channel:
only the private address fields matter (`IsValid()` = `some`). -/
structure IpamNode where
  privateIPv4 : Option Pfx4
  privateIPv6 : Option Pfx6
deriving DecidableEq

/-- The ipam `Plugin` state: the decoded static config and the data
handle, which is `nil` until `InjectQuerier` opens the query channel
(the handle is modelled by the node list it would yield). -/
structure IpamPlugin where
  config : IpamConfig
  data : Option (List IpamNode)

/-- Oracles for the ipam plugin's external collaborators:
`netip.ParsePrefix` per family and the PRNG draw sequence. -/
structure IpamEnv where
  parse4 : String → Except String Pfx4
  parse6 : String → Except String Pfx6
  rnd : Nat → Nat

/-- The `Plugin.Configure`: decodes the config map; the data handle is
untouched (in particular it stays `nil` before `InjectQuerier`). -/
def ipamConfigure (p : IpamPlugin) (cfg : IpamConfig) : IpamPlugin :=
  { p with config := cfg }

/-- The `Plugin.InjectQuerier`: opens the query channel, setting the data
handle. -/
def ipamInjectQuerier (p : IpamPlugin) (db : List IpamNode) : IpamPlugin :=
  { p with data := some db }

/-- The `Plugin.allocateV4`: parse the subnet, collect the valid private
IPv4 prefixes of all nodes, and scan with `next32`.  The source
returns `prefix.String()`. -/
def allocateV4 (env : IpamEnv) (p : IpamPlugin) (nodes : List IpamNode)
    (r : AllocateIPRequest) : Except GoError AllocatedIP :=
  match env.parse4 r.subnet with
  | .error e => .error (.errorf ("parse subnet: " ++ e))
  | .ok gp =>
    let allocated := nodes.filterMap (fun n => n.privateIPv4)
    match next32 allocated (fun pfx => isStaticAllocation4 p.config pfx) gp with
    | .error e => .error (.errorf ("find next available IPv4: " ++ e))
    | .ok pfx => .ok (AllocatedIP.mk (pfx4Str pfx))

/-- The `Plugin.allocateV6`: parse the subnet, collect the valid private
IPv6 prefixes of all nodes, and run the retry loop with "taken" =
allocated or statically reserved. -/
def allocateV6 (env : IpamEnv) (p : IpamPlugin) (nodes : List IpamNode)
    (r : AllocateIPRequest) : Except GoError AllocatedIP :=
  match env.parse6 r.subnet with
  | .error e => .error (.errorf ("parse subnet: " ++ e))
  | .ok gp =>
    let allocated := nodes.filterMap (fun n => n.privateIPv6)
    match allocateV6core
        (fun pfx => allocated.contains pfx || isStaticAllocation6 p.config pfx)
        env.rnd gp with
    | .error e => .error (.errorf e)
    | .ok pfx => .ok (AllocatedIP.mk (pfx6Str pfx))

/-- The `Plugin.Allocate`: fails while the data handle is `nil` ("plugin
not configured", a plain `fmt.Errorf` error); otherwise serves a
static assignment verbatim or runs the per-family allocator. -/
def Allocate (env : IpamEnv) (p : IpamPlugin) (r : AllocateIPRequest) :
    Except GoError AllocatedIP :=
  match p.data with
  | none => .error (.errorf "plugin not configured")
  | some nodes =>
    match r.version with
    | .v4 =>
      match lookupStr p.config.staticIPv4 r.nodeId with
      | some addr => .ok (AllocatedIP.mk addr)
      | none => allocateV4 env p nodes r
    | .v6 =>
      match lookupStr p.config.staticIPv6 r.nodeId with
      | some addr => .ok (AllocatedIP.mk addr)
      | none => allocateV6 env p nodes r
    | .unspecified => .error (.errorf "unsupported IP version")

/-! ## Trace-order helpers and concrete fixtures -/

/-- Some operation satisfying `p` occurs strictly before some
operation satisfying `q` in the trace. -/
def occursBefore (p q : Op → Bool) : List Op → Bool
  | [] => false
  | o :: rest => (p o && rest.any q) || occursBefore p q rest

/-- Recognizer for the barrier operation. -/
def isBarrierOp : Op → Bool
  | .barrier _ => true
  | _ => false

/-- Recognizer for the peers-DB delete operation. -/
def isDeleteOp : Op → Bool
  | .deletePeer _ => true
  | _ => false

/-- Recognizer for the consensus-removal operation. -/
def isRemoveOp : Op → Bool
  | .removeServer _ => true
  | _ => false

/-- A concrete peer holding a raft (consensus-voting) port. -/
def peerN1 : Peer :=
  { id := "n1", primaryEndpoint := "ep", wireguardEndpoints := ["wg1"],
    zoneAwarenessId := "z", publicKey := "pk", privateIpv4 := "172.16.0.1/32",
    privateIpv6 := "fd00::1/128", features := [FeaturePort.mk FEATURE_RAFT 9443],
    joinedAt := 1 }

/-- A concrete self-removal `Leave` call for `peerN1` on the leader
with security disabled and watching plugins registered. -/
def pinN1 : LeaveIn :=
  { inNetwork := true, reqId := "n1", isLeader := true, secure := false,
    proxiedFor := none, authPeer := some "n1", removeOk := true, deleteOk := true,
    hasPlugins := true, hasWatchers := true }

/-! ## Claims about the Leave handler -/

/-- C6: Leave enforces its preconditions before any mutation: an
out-of-network caller is rejected, an empty id returns
InvalidArgument, a non-leader returns FailedPrecondition, and in each
case no consensus/store operation has been issued and the peers DB is
unchanged. -/
theorem leave_preconditions_fail_fast (pin : LeaveIn) (db : List (String × Peer)) :
    (pin.inNetwork = false →
      leave pin db =
        { result := .error (.grpcStatus .PermissionDenied "request is not in-network"),
          peers := db, trace := [], emitted := none }) ∧
    (pin.inNetwork = true → pin.reqId = "" →
      leave pin db =
        { result := .error (.grpcStatus .InvalidArgument "id is required"),
          peers := db, trace := [], emitted := none }) ∧
    (pin.inNetwork = true → pin.reqId ≠ "" → pin.isLeader = false →
      leave pin db =
        { result := .error (.grpcStatus .FailedPrecondition "not leader"),
          peers := db, trace := [], emitted := none }) := by
  refine ⟨fun h => ?_, fun h1 h2 => ?_, fun h1 h2 h3 => ?_⟩ <;> simp [leave, *]

/-- Witness for `leave_preconditions_fail_fast` at concrete inputs. -/
theorem leave_preconditions_fail_fast_witness :
    ({ pinN1 with isLeader := false } : LeaveIn).isLeader = false ∧
    leave { pinN1 with isLeader := false } [("n1", peerN1)] =
      { result := .error (.grpcStatus .FailedPrecondition "not leader"),
        peers := [("n1", peerN1)], trace := [], emitted := none } :=
  ⟨rfl, (leave_preconditions_fail_fast { pinN1 with isLeader := false }
    [("n1", peerN1)]).2.2 rfl (by decide) rfl⟩

/-- C4: with security enabled, a Leave whose verified caller identity
(the proxied-for identity when present, otherwise the authenticated
peer identity) differs from the non-empty target id returns
PermissionDenied, with the peers DB unchanged and no consensus/store
operation issued. -/
theorem leave_auth_mismatch_denied (pin : LeaveIn) (db : List (String × Peer))
    (hnet : pin.inNetwork = true) (hid : pin.reqId ≠ "") (hl : pin.isLeader = true)
    (hsec : pin.secure = true)
    (hmis : (∃ c, pin.proxiedFor = some c ∧ c ≠ pin.reqId) ∨
      (pin.proxiedFor = none ∧ ∃ c, pin.authPeer = some c ∧ c ≠ pin.reqId)) :
    ∃ msg, leave pin db =
      { result := .error (.grpcStatus .PermissionDenied msg),
        peers := db, trace := [], emitted := none } := by
  rcases hmis with ⟨c, hp, hcne⟩ | ⟨hp, c, ha, hcne⟩
  · exact ⟨"proxied for " ++ c ++ ", not " ++ pin.reqId, by simp [leave, authCheck, *]⟩
  · exact ⟨"peer id " ++ c ++ ", not " ++ pin.reqId, by simp [leave, authCheck, *]⟩

/-- Witness for `leave_auth_mismatch_denied`: caller "n2" may not
remove "n1". -/
theorem leave_auth_mismatch_denied_witness :
    ("n2" : String) ≠ "n1" ∧
    ∃ msg, leave { pinN1 with secure := true, authPeer := some "n2" } [("n1", peerN1)] =
      { result := .error (.grpcStatus .PermissionDenied msg),
        peers := [("n1", peerN1)], trace := [], emitted := none } :=
  ⟨by decide, leave_auth_mismatch_denied
    { pinN1 with secure := true, authPeer := some "n2" } [("n1", peerN1)]
    rfl (by decide) rfl rfl (Or.inr ⟨rfl, "n2", rfl, by decide⟩)⟩

/-- C5: Leave is idempotent on an absent peer: a request that passes
the precondition and identity checks but whose target id is not in
the peers DB succeeds with no error, leaving the DB unchanged and
issuing no consensus/store operation. -/
theorem leave_absent_peer_idempotent (pin : LeaveIn) (db : List (String × Peer))
    (hnet : pin.inNetwork = true) (hid : pin.reqId ≠ "") (hl : pin.isLeader = true)
    (hauth : authCheck pin = none) (habs : lookupPeer db pin.reqId = none) :
    leave pin db = { result := .ok (), peers := db, trace := [], emitted := none } := by
  simp [leave, *]

/-- Witness for `leave_absent_peer_idempotent`: a second Leave for the
id removed by the run of `leave pinN1` succeeds again on the
now-empty DB. -/
theorem leave_absent_peer_idempotent_witness :
    (leave pinN1 [("n1", peerN1)]).peers = [] ∧
    lookupPeer [] pinN1.reqId = none ∧
    leave pinN1 [] = { result := .ok (), peers := [], trace := [], emitted := none } :=
  ⟨by decide, rfl,
    leave_absent_peer_idempotent pinN1 [] rfl (by decide) rfl rfl rfl⟩

/-- C1 (amended): when the target peer holds a raft port and both the
consensus removal and the record delete succeed, the trace is exactly
RemoveServer, then the record delete, then the deferred 15-second
barrier — the consensus removal always precedes the record delete
(never the reverse), and the barrier runs after the delete, at
handler return. -/
theorem leave_raft_removal_ordering (pin : LeaveIn) (db : List (String × Peer))
    (peer : Peer)
    (hnet : pin.inNetwork = true) (hid : pin.reqId ≠ "") (hl : pin.isLeader = true)
    (hauth : authCheck pin = none) (hfound : lookupPeer db pin.reqId = some peer)
    (hraft : peer.PortFor FEATURE_RAFT ≠ 0)
    (hrm : pin.removeOk = true) (hdel : pin.deleteOk = true) :
    (leave pin db).trace =
      [Op.removeServer pin.reqId, Op.deletePeer pin.reqId, Op.barrier 15] ∧
    occursBefore isRemoveOp isDeleteOp (leave pin db).trace = true ∧
    occursBefore isDeleteOp isRemoveOp (leave pin db).trace = false ∧
    occursBefore isBarrierOp isDeleteOp (leave pin db).trace = false := by
  have htr : (leave pin db).trace =
      [Op.removeServer pin.reqId, Op.deletePeer pin.reqId, Op.barrier 15] := by
    simp [leave, leaveFinish, appendBarrier, *]
  refine ⟨htr, ?_, ?_, ?_⟩ <;>
    simp [htr, occursBefore, isRemoveOp, isDeleteOp, isBarrierOp]

/-- Witness for `leave_raft_removal_ordering` at the concrete fixture. -/
theorem leave_raft_removal_ordering_witness :
    peerN1.PortFor FEATURE_RAFT ≠ 0 ∧
    (leave pinN1 [("n1", peerN1)]).trace =
      [Op.removeServer "n1", Op.deletePeer "n1", Op.barrier 15] :=
  ⟨by decide, (leave_raft_removal_ordering pinN1 [("n1", peerN1)] peerN1
    rfl (by decide) rfl rfl (by decide) (by decide) rfl rfl).1⟩

/-- C1 (counterexample): a concrete successful Leave of a raft-voting
peer issues the barrier, but never before the record delete — the
trace is removal, delete, then barrier — refuting the claim that the
15-second barrier wait completes before the record delete. -/
theorem leave_barrier_after_delete_cex :
    (leave pinN1 [("n1", peerN1)]).trace =
      [Op.removeServer "n1", Op.deletePeer "n1", Op.barrier 15] ∧
    (leave pinN1 [("n1", peerN1)]).trace.any isBarrierOp = true ∧
    occursBefore isBarrierOp isDeleteOp (leave pinN1 [("n1", peerN1)]).trace = false ∧
    occursBefore isRemoveOp isDeleteOp (leave pinN1 [("n1", peerN1)]).trace = true := by
  decide

/-- C10: a successful Leave of an existing peer with watching plugins
registered hands the fan-out goroutine an event of type NODE_JOIN
(not NODE_LEAVE) carrying the full record read before deletion. -/
theorem leave_emits_node_join_event (pin : LeaveIn) (db : List (String × Peer))
    (peer : Peer)
    (hnet : pin.inNetwork = true) (hid : pin.reqId ≠ "") (hl : pin.isLeader = true)
    (hauth : authCheck pin = none) (hfound : lookupPeer db pin.reqId = some peer)
    (hrm : pin.removeOk = true) (hdel : pin.deleteOk = true)
    (hpl : pin.hasPlugins = true) (hw : pin.hasWatchers = true) :
    (leave pin db).emitted = some
      { type := EventType.NODE_JOIN
        node :=
          { id := peer.id
            primaryEndpoint := peer.primaryEndpoint
            wireguardEndpoints := peer.wireguardEndpoints
            zoneAwarenessId := peer.zoneAwarenessId
            publicKey := peer.publicKey
            privateIpv4 := peer.privateIpv4
            privateIpv6 := peer.privateIpv6
            features := peer.features
            joinedAt := peer.joinedAt } } ∧
    EventType.NODE_JOIN ≠ EventType.NODE_LEAVE := by
  refine ⟨?_, by decide⟩
  by_cases hport : peer.PortFor FEATURE_RAFT = 0 <;>
    simp [leave, leaveFinish, leaveEmittedEvent, appendBarrier, *]

/-- Witness for `leave_emits_node_join_event` at the concrete fixture. -/
theorem leave_emits_node_join_event_witness :
    lookupPeer [("n1", peerN1)] pinN1.reqId = some peerN1 ∧
    (leave pinN1 [("n1", peerN1)]).emitted = some
      { type := EventType.NODE_JOIN
        node :=
          { id := "n1", primaryEndpoint := "ep", wireguardEndpoints := ["wg1"],
            zoneAwarenessId := "z", publicKey := "pk",
            privateIpv4 := "172.16.0.1/32", privateIpv6 := "fd00::1/128",
            features := [FeaturePort.mk FEATURE_RAFT 9443], joinedAt := 1 } } :=
  ⟨by decide, (leave_emits_node_join_event pinN1 [("n1", peerN1)] peerN1
    rfl (by decide) rfl rfl (by decide) rfl rfl rfl rfl).1⟩

/-! ## Claims about the network ACL handlers -/

/-- An admin environment on the leader where every collaborator check
passes. -/
def envLeader : AdminEnv :=
  { isLeader := true, rbacAllows := true, isValidID := fun _ => true,
    validActionName := fun _ => true, validateACL := fun _ => none }

/-- A valid ACL with exactly one non-empty match set. -/
def aclWeb : NetworkACL :=
  { name := "web", action := 0, sourceCidrs := ["10.0.0.0/8"],
    destinationCidrs := [], sourceNodes := [], destinationNodes := [] }

/-- C7: PutNetworkACL fails FailedPrecondition on a non-leader;
InvalidArgument on an empty or invalid name; and — once the leader,
name, authorization and action checks pass — InvalidArgument when all
four match sets are empty; in every case the ACL store is unchanged. -/
theorem put_network_acl_validation (env : AdminEnv) (db : AclDB) (acl : NetworkACL) :
    (env.isLeader = false →
      PutNetworkACL env db acl =
        (.error (.grpcStatus .FailedPrecondition "not the leader"), db)) ∧
    (env.isLeader = true → acl.name = "" →
      PutNetworkACL env db acl =
        (.error (.grpcStatus .InvalidArgument "acl name is required"), db)) ∧
    (env.isLeader = true → acl.name ≠ "" → env.isValidID acl.name = false →
      PutNetworkACL env db acl =
        (.error (.grpcStatus .InvalidArgument "acl name must be a valid ID"), db)) ∧
    (env.isLeader = true → acl.name ≠ "" → env.isValidID acl.name = true →
      env.rbacAllows = true → env.validActionName acl.action = true →
      allEmpty [acl.destinationCidrs, acl.sourceCidrs,
        acl.sourceNodes, acl.destinationNodes] = true →
      PutNetworkACL env db acl =
        (.error (.grpcStatus .InvalidArgument
          "at least one of destination_cidrs, source_cidrs, source_nodes, or destination_nodes must be set"), db)) := by
  refine ⟨fun h1 => ?_, fun h1 h2 => ?_, fun h1 h2 h3 => ?_,
    fun h1 h2 h3 h4 h5 h6 => ?_⟩ <;> simp [PutNetworkACL, *]

/-- Witness for `put_network_acl_validation`: an all-empty ACL on the
leader, and any ACL on a non-leader. -/
theorem put_network_acl_validation_witness :
    allEmpty [([] : List String), [], [], []] = true ∧
    PutNetworkACL envLeader []
      { name := "web", action := 0, sourceCidrs := [], destinationCidrs := [],
        sourceNodes := [], destinationNodes := [] } =
      (.error (.grpcStatus .InvalidArgument
        "at least one of destination_cidrs, source_cidrs, source_nodes, or destination_nodes must be set"), []) ∧
    PutNetworkACL { envLeader with isLeader := false } [] aclWeb =
      (.error (.grpcStatus .FailedPrecondition "not the leader"), []) :=
  ⟨by decide,
    (put_network_acl_validation envLeader []
      { name := "web", action := 0, sourceCidrs := [], destinationCidrs := [],
        sourceNodes := [], destinationNodes := [] }).2.2.2
      rfl (by decide) rfl rfl rfl (by decide),
    (put_network_acl_validation { envLeader with isLeader := false } [] aclWeb).1 rfl⟩

/-- C8: on the leader, an authorized Put of a valid ACL (valid name,
valid action, at least one non-empty match set) succeeds, and a Get of
that name on the resulting store returns exactly the ACL that was put;
a Get for a non-empty name absent from the store returns NotFound. -/
theorem network_acl_roundtrip (env : AdminEnv) (db : AclDB) (acl : NetworkACL)
    (other : String)
    (hl : env.isLeader = true) (hname : acl.name ≠ "")
    (hvalid : env.isValidID acl.name = true) (hrbac : env.rbacAllows = true)
    (haction : env.validActionName acl.action = true)
    (hnonempty : allEmpty [acl.destinationCidrs, acl.sourceCidrs,
      acl.sourceNodes, acl.destinationNodes] = false)
    (hv : env.validateACL acl = none) :
    (PutNetworkACL env db acl).1 = .ok () ∧
    GetNetworkACL (PutNetworkACL env db acl).2 acl.name = .ok acl ∧
    (other ≠ "" → getACL db other = none →
      GetNetworkACL db other = .error (.grpcStatus .NotFound
        ("network acl \"" ++ other ++ "\" not found"))) := by
  have hput : PutNetworkACL env db acl = (.ok (), putACL db acl) := by
    simp [PutNetworkACL, *]
  refine ⟨by simp [hput], ?_, fun h1 h2 => by simp [GetNetworkACL, *]⟩
  simp [hput, GetNetworkACL, getACL, putACL, hname]

/-- Witness for `network_acl_roundtrip`: put `aclWeb` into the empty
store, read it back, and observe NotFound for an absent name. -/
theorem network_acl_roundtrip_witness :
    allEmpty [aclWeb.destinationCidrs, aclWeb.sourceCidrs,
      aclWeb.sourceNodes, aclWeb.destinationNodes] = false ∧
    ((PutNetworkACL envLeader [] aclWeb).1 = .ok () ∧
     GetNetworkACL (PutNetworkACL envLeader [] aclWeb).2 aclWeb.name = .ok aclWeb ∧
     (("db" : String) ≠ "" → getACL [] "db" = none →
       GetNetworkACL [] "db" = .error (.grpcStatus .NotFound
         "network acl \"db\" not found"))) :=
  ⟨by decide,
    network_acl_roundtrip envLeader [] aclWeb "db"
      rfl (by decide) rfl rfl rfl (by decide) rfl⟩

/-! ## Claims about the ipam plugin's startup guard -/

/-- A concrete ipam oracle environment (never consulted before the
data handle exists). -/
def ipamEnv0 : IpamEnv :=
  { parse4 := fun _ => .error "unexpected", parse6 := fun _ => .error "unexpected",
    rnd := fun _ => 0 }

/-- The ipam plugin before `InjectQuerier` has opened the query
channel: the data handle is nil. -/
def ipamP0 : IpamPlugin :=
  { config := { staticIPv4 := [], staticIPv6 := [] }, data := none }

/-- A concrete allocation request. -/
def ipamR0 : AllocateIPRequest :=
  { nodeId := "n1", subnet := "10.0.0.0/24", version := IpVersion.v4 }

/-- C9 (amended): an Allocate received while the data handle is nil —
in particular any time before `InjectQuerier` has opened the query
channel, since `Configure` leaves the handle untouched — fails
immediately with a plain error whose message is "plugin not
configured"; being a plain `fmt.Errorf` error, it surfaces with gRPC
code Unknown, not FailedPrecondition. -/
theorem ipam_allocate_unconfigured (env : IpamEnv) (p : IpamPlugin)
    (r : AllocateIPRequest) (hd : p.data = none) :
    Allocate env p r = .error (.errorf "plugin not configured") ∧
    goErrGrpcCode (.errorf "plugin not configured") = .Unknown ∧
    (∀ cfg, (ipamConfigure p cfg).data = none) := by
  exact ⟨by simp [Allocate, hd], rfl, fun cfg => by simp [ipamConfigure, hd]⟩

/-- Witness for `ipam_allocate_unconfigured` at the concrete fixture. -/
theorem ipam_allocate_unconfigured_witness :
    ipamP0.data = none ∧
    Allocate ipamEnv0 ipamP0 ipamR0 = .error (.errorf "plugin not configured") :=
  ⟨rfl, (ipam_allocate_unconfigured ipamEnv0 ipamP0 ipamR0 rfl).1⟩

/-- C9 (counterexample): the error returned for an Allocate before the
query channel exists is a plain error carrying gRPC code Unknown —
not a FailedPrecondition status, refuting the claim's error
classification. -/
theorem ipam_allocate_unconfigured_cex :
    Allocate ipamEnv0 ipamP0 ipamR0 = .error (.errorf "plugin not configured") ∧
    goErrGrpcCode (GoError.errorf "plugin not configured") = GrpcCode.Unknown ∧
    GrpcCode.Unknown ≠ GrpcCode.FailedPrecondition := by
  exact ⟨rfl, rfl, by decide⟩

/-! ## Claims about the IPv4 allocator -/

/-- Soundness of the `next32` scan loop: an `ok` result is a free /32
at or after the start, contained in the subnet, and every address
between the start and the result was contained but allocated or
statically reserved. -/
theorem next32Loop_ok (set : List Pfx4) (isStatic : Pfx4 → Bool) (c : Pfx4) :
    ∀ fuel ip pfx, next32Loop set isStatic c fuel ip = .ok pfx →
      pfx.bits = 32 ∧ contains4 c pfx.addr = true ∧
      set.contains pfx = false ∧ isStatic pfx = false ∧
      ip ≤ pfx.addr ∧
      ∀ x, ip ≤ x → x < pfx.addr →
        contains4 c x = true ∧
        (set.contains (Pfx4.mk x 32) = true ∨ isStatic (Pfx4.mk x 32) = true) := by
  intro fuel
  induction fuel with
  | zero => intro ip pfx h; simp [next32Loop] at h
  | succ fuel ih =>
    intro ip pfx h
    rw [next32Loop] at h
    by_cases hc : contains4 c ip = true
    · rw [if_pos hc] at h
      cases ha : set.contains (Pfx4.mk ip 32) <;>
        cases hs : isStatic (Pfx4.mk ip 32) <;>
        rw [ha, hs] at h <;> simp only [Bool.not_true, Bool.not_false,
          Bool.and_true, Bool.and_false, Bool.true_and, Bool.false_and,
          if_true, if_false] at h
      · injection h with h'
        subst h'
        refine ⟨rfl, hc, ha, hs, Nat.le_refl _, fun x hx1 hx2 => ?_⟩
        have hx2' : x < ip := hx2
        omega
      all_goals {
        obtain ⟨hb, hcont, hset, hstat, hle, hmid⟩ := ih (ip + 1) pfx h
        refine ⟨hb, hcont, hset, hstat, by omega, fun x hx1 hx2 => ?_⟩
        rcases Nat.eq_or_lt_of_le hx1 with hx | hx
        · subst hx
          exact ⟨hc, by rw [ha, hs]; simp⟩
        · exact hmid x (by omega) hx2 }
    · rw [if_neg hc] at h
      simp at h

/-- Exhaustion of the `next32` scan loop: when every contained address
is allocated or statically reserved, the loop yields the "no more
addresses" error (for any fuel and start). -/
theorem next32Loop_exhaust (set : List Pfx4) (isStatic : Pfx4 → Bool) (c : Pfx4)
    (hall : ∀ ip, contains4 c ip = true →
      set.contains (Pfx4.mk ip 32) = true ∨ isStatic (Pfx4.mk ip 32) = true) :
    ∀ fuel ip, next32Loop set isStatic c fuel ip =
      .error ("no more addresses in " ++ pfx4Str c) := by
  intro fuel
  induction fuel with
  | zero => intro ip; rfl
  | succ fuel ih =>
    intro ip
    rw [next32Loop]
    by_cases hc : contains4 c ip = true
    · rw [if_pos hc]
      rcases hall ip hc with h | h <;> rw [h] <;> simp [ih]
    · rw [if_neg hc]

/-- A prefix whose host bits are zero is its own network address. -/
theorem networkAddr_of_canonical (c : Pfx4)
    (hcanon : c.addr % 2 ^ (32 - c.bits) = 0) : networkAddr c = c.addr := by
  unfold networkAddr
  rw [Nat.shiftRight_eq_div_pow, Nat.shiftLeft_eq]
  exact Nat.div_mul_cancel (Nat.dvd_of_mod_eq_zero hcanon)

/-- C2 (amended): for a subnet in canonical (masked) form — where the
given address is the network address, as with "10.0.0.0/24" — the
IPv4 allocator scans sequentially from the network address + 1,
skipping allocated and statically reserved addresses; an `ok` result
is a /32 contained in the subnet, not allocated, and not reserved,
and every address between the start and the result was taken; when
every contained address is taken the scan returns the explicit
"no more addresses" exhaustion error. -/
theorem ipam_next32_spec (set : List Pfx4) (isStatic : Pfx4 → Bool) (c : Pfx4)
    (hcanon : c.addr % 2 ^ (32 - c.bits) = 0) :
    networkAddr c = c.addr ∧
    (∀ pfx, next32 set isStatic c = .ok pfx →
      pfx.bits = 32 ∧ contains4 c pfx.addr = true ∧
      set.contains pfx = false ∧ isStatic pfx = false ∧
      networkAddr c + 1 ≤ pfx.addr ∧
      ∀ x, networkAddr c + 1 ≤ x → x < pfx.addr →
        set.contains (Pfx4.mk x 32) = true ∨ isStatic (Pfx4.mk x 32) = true) ∧
    ((∀ ip, contains4 c ip = true →
        set.contains (Pfx4.mk ip 32) = true ∨ isStatic (Pfx4.mk ip 32) = true) →
      next32 set isStatic c = .error ("no more addresses in " ++ pfx4Str c)) := by
  have hnet := networkAddr_of_canonical c hcanon
  refine ⟨hnet, fun pfx h => ?_, fun hall => next32Loop_exhaust set isStatic c hall _ _⟩
  obtain ⟨hb, hcont, hset, hstat, hle, hmid⟩ := next32Loop_ok set isStatic c _ _ _ h
  exact ⟨hb, hcont, hset, hstat, by omega,
    fun x hx1 hx2 => (hmid x (by omega) hx2).2⟩

/-- The canonical /30 at 10.0.0.0 with 10.0.0.1 already allocated. -/
def pfx4c0 : Pfx4 := Pfx4.mk 0x0A000000 30

/-- Witness for `ipam_next32_spec`: with 10.0.0.1 allocated in
10.0.0.0/30, the scan skips it and returns 10.0.0.2/32. -/
theorem ipam_next32_spec_witness :
    pfx4c0.addr % 2 ^ (32 - pfx4c0.bits) = 0 ∧
    networkAddr pfx4c0 = pfx4c0.addr ∧
    next32 [Pfx4.mk 0x0A000001 32] (fun _ => false) pfx4c0 =
      .ok (Pfx4.mk 0x0A000002 32) :=
  ⟨by decide,
    (ipam_next32_spec [Pfx4.mk 0x0A000001 32] (fun _ => false) pfx4c0 (by decide)).1,
    by decide⟩

/-- C2 (counterexample): `netip.ParsePrefix` keeps the address exactly
as written, so the parseable subnet "10.0.0.2/30" reaches `next32` as
the non-masked prefix 10.0.0.2/30.  With nothing allocated and no
static reservations the scan returns 10.0.0.3/32, even though
10.0.0.1 — the network address + 1 — is free and contained in the
subnet: the scan starts at the given address + 1, not at the network
address + 1, and the result is not the subnet's first free /32. -/
theorem ipam_next32_start_cex :
    next32 [] (fun _ => false) (Pfx4.mk 0x0A000002 30) = .ok (Pfx4.mk 0x0A000003 32) ∧
    networkAddr (Pfx4.mk 0x0A000002 30) + 1 = 0x0A000001 ∧
    contains4 (Pfx4.mk 0x0A000002 30) 0x0A000001 = true ∧
    ([] : List Pfx4).contains (Pfx4.mk 0x0A000001 32) = false ∧
    (0x0A000001 : Nat) < 0x0A000003 := by decide

/-! ## Claims about the IPv6 allocator -/

/-- The `random64` on a non-IPv6 prefix fails, for every draw. -/
theorem random64_not6 (gp : Pfx6) (h : gp.is6 = false) (r : Nat) :
    random64 gp r = .error "prefix must be IPv6" := by
  simp [random64, h]

/-- The `random64` on an IPv6 prefix that is not a /48 fails, for every
draw. -/
theorem random64_not48 (gp : Pfx6) (h6 : gp.is6 = true) (h : gp.bits ≠ 48)
    (r : Nat) : random64 gp r = .error "prefix must be /48" := by
  simp [random64, h6, h]

/-- When every draw of `random64` fails with the same error, the retry
loop surfaces it (wrapped) on its first iteration. -/
theorem allocV6Loop_raderr (isTaken : Pfx6 → Bool) (rnd : Nat → Nat) (gp : Pfx6)
    (m : String) (hm : ∀ r, random64 gp r = .error m) :
    ∀ fuel tries, 0 < fuel →
      allocV6Loop isTaken rnd gp tries fuel = .error ("random IPv6: " ++ m) := by
  intro fuel tries hf
  cases fuel with
  | zero => omega
  | succ f => simp [allocV6Loop, hm (rnd tries)]

/-- The `random64` on a valid IPv6 /48 prefix returns the /64 built from
the draw. -/
theorem random64_ok (gp : Pfx6) (h6 : gp.is6 = true) (h48 : gp.bits = 48)
    (r : Nat) : random64 gp r = .ok (Pfx6.mk (random64Addr gp r) 64 true) := by
  simp [random64, h6, h48]

/-- An `ok` result of the retry loop comes from some draw within the
try bound and is not taken. -/
theorem allocV6Loop_ok (isTaken : Pfx6 → Bool) (rnd : Nat → Nat) (gp : Pfx6)
    (h6 : gp.is6 = true) (h48 : gp.bits = 48) :
    ∀ fuel tries pfx, allocV6Loop isTaken rnd gp tries fuel = .ok pfx →
      ∃ k, tries ≤ k ∧ k < tries + fuel ∧
        pfx = Pfx6.mk (random64Addr gp (rnd k)) 64 true ∧ isTaken pfx = false := by
  intro fuel
  induction fuel with
  | zero => intro tries pfx h; simp [allocV6Loop] at h
  | succ fuel ih =>
    intro tries pfx h
    rw [allocV6Loop, random64_ok gp h6 h48 (rnd tries)] at h
    by_cases ht : isTaken (Pfx6.mk (random64Addr gp (rnd tries)) 64 true) = true
    · simp only [ht, Bool.not_true, Bool.false_eq_true, if_false] at h
      obtain ⟨k, hk1, hk2, hk3, hk4⟩ := ih (tries + 1) pfx h
      exact ⟨k, by omega, by omega, hk3, hk4⟩
    · rw [Bool.not_eq_true] at ht
      simp only [ht, Bool.not_false, if_true] at h
      injection h with h'
      exact ⟨tries, Nat.le_refl _, by omega, h'.symm, by rw [← h']; exact ht⟩

/-- When every draw within the try bound yields a taken prefix, the
retry loop fails with the 100-tries error. -/
theorem allocV6Loop_err (isTaken : Pfx6 → Bool) (rnd : Nat → Nat) (gp : Pfx6)
    (h6 : gp.is6 = true) (h48 : gp.bits = 48) :
    ∀ fuel tries,
      (∀ k, tries ≤ k → k < tries + fuel →
        isTaken (Pfx6.mk (random64Addr gp (rnd k)) 64 true) = true) →
      allocV6Loop isTaken rnd gp tries fuel =
        .error "failed to find available IPv6 after 100 tries" := by
  intro fuel
  induction fuel with
  | zero => intro tries _; rfl
  | succ fuel ih =>
    intro tries hall
    rw [allocV6Loop, random64_ok gp h6 h48 (rnd tries)]
    simp only [hall tries (Nat.le_refl _) (by omega), Bool.not_true,
      Bool.false_eq_true, if_false]
    exact ih (tries + 1) (fun k hk1 hk2 => hall k (by omega) (by omega))

/-- Arithmetic of a 128-bit value split as 48 high bits, a 16-bit
middle group, and 64 low bits. -/
theorem split128 (hi r16 lo : Nat) (hr : r16 < 2 ^ 16) (hl : lo < 2 ^ 64) :
    (hi * 2 ^ 80 + r16 * 2 ^ 64 + lo) / 2 ^ 80 = hi ∧
    (hi * 2 ^ 80 + r16 * 2 ^ 64 + lo) % 2 ^ 64 = lo ∧
    ((hi * 2 ^ 80 + r16 * 2 ^ 64 + lo) / 2 ^ 64) % 2 ^ 16 = r16 := by
  have hrest : r16 * 2 ^ 64 + lo < 2 ^ 80 := by
    calc r16 * 2 ^ 64 + lo < r16 * 2 ^ 64 + 2 ^ 64 := by omega
      _ = (r16 + 1) * 2 ^ 64 := by ring
      _ ≤ 2 ^ 16 * 2 ^ 64 := mul_le_mul_right' (by omega) _
      _ = 2 ^ 80 := by norm_num
  refine ⟨?_, ?_, ?_⟩
  · rw [Nat.add_assoc, Nat.mul_comm hi (2 ^ 80), Nat.mul_add_div (by norm_num),
      Nat.div_eq_of_lt hrest, Nat.add_zero]
  · have h : hi * 2 ^ 80 + r16 * 2 ^ 64 + lo = 2 ^ 64 * (hi * 2 ^ 16 + r16) + lo := by
      ring
    rw [h, Nat.mul_add_mod, Nat.mod_eq_of_lt hl]
  · have h : hi * 2 ^ 80 + r16 * 2 ^ 64 + lo = 2 ^ 64 * (hi * 2 ^ 16 + r16) + lo := by
      ring
    rw [h, Nat.mul_add_div (by norm_num), Nat.div_eq_of_lt hl, Nat.add_zero,
      Nat.mul_comm hi (2 ^ 16), Nat.mul_add_mod, Nat.mod_eq_of_lt hr]

/-- Bit accounting for `random64Addr`: the top 48 bits and the low 64
bits of the /48 prefix's address are preserved, and bits 48-63 carry
the 16-bit draw. -/
theorem random64Addr_split (gp : Pfx6) (r : Nat) :
    random64Addr gp r >>> 80 = gp.addr >>> 80 ∧
    random64Addr gp r % 2 ^ 64 = gp.addr % 2 ^ 64 ∧
    (random64Addr gp r >>> 64) % 2 ^ 16 = r % 2 ^ 16 := by
  obtain ⟨k1, k2, k3⟩ := split128 (gp.addr >>> 80) (r % 2 ^ 16) (gp.addr % 2 ^ 64)
    (Nat.mod_lt _ (by norm_num)) (Nat.mod_lt _ (by norm_num))
  refine ⟨?_, ?_, ?_⟩
  · conv_lhs => rw [Nat.shiftRight_eq_div_pow]
    exact k1
  · exact k2
  · conv_lhs => rw [Nat.shiftRight_eq_div_pow]
    exact k3

/-- C3: for IPv6 allocation the global prefix must be exactly a /48
(an IPv6 prefix of any other length fails, as does a non-IPv6 one);
a successful allocation is a /64 whose first 48 bits equal the input
prefix and whose bits 48-63 carry one of the 16-bit PRNG draws
(`math/rand.Intn(65536)` is modelled as an oracle of draws below
65536), the chosen /64 colliding with no allocated or statically
reserved prefix; and when the draws of all 100 permitted attempts
collide, allocation fails with the 100-tries error. -/
theorem ipam_allocate_v6_spec (isTaken : Pfx6 → Bool) (rnd : Nat → Nat) (gp : Pfx6)
    (h6 : gp.is6 = true) (h48 : gp.bits = 48) (hrnd : ∀ k, rnd k < 2 ^ 16) :
    (∀ gp' : Pfx6, gp'.is6 = true → gp'.bits ≠ 48 →
      allocateV6core isTaken rnd gp' = .error "random IPv6: prefix must be /48") ∧
    (∀ gp' : Pfx6, gp'.is6 = false →
      allocateV6core isTaken rnd gp' = .error "random IPv6: prefix must be IPv6") ∧
    (∀ pfx, allocateV6core isTaken rnd gp = .ok pfx →
      pfx.bits = 64 ∧ pfx.is6 = true ∧ isTaken pfx = false ∧
      pfx.addr >>> 80 = gp.addr >>> 80 ∧
      pfx.addr % 2 ^ 64 = gp.addr % 2 ^ 64 ∧
      ∃ k, k < 100 ∧ (pfx.addr >>> 64) % 2 ^ 16 = rnd k) ∧
    ((∀ k, k < 100 → isTaken (Pfx6.mk (random64Addr gp (rnd k)) 64 true) = true) →
      allocateV6core isTaken rnd gp =
        .error "failed to find available IPv6 after 100 tries") := by
  refine ⟨?_, ?_, ?_, ?_⟩
  · intro gp' h1 h2
    exact allocV6Loop_raderr isTaken rnd gp' "prefix must be /48"
      (random64_not48 gp' h1 h2) 100 0 (by norm_num)
  · intro gp' h1
    exact allocV6Loop_raderr isTaken rnd gp' "prefix must be IPv6"
      (random64_not6 gp' h1) 100 0 (by norm_num)
  · intro pfx h
    obtain ⟨k, _, hk2, hk3, hk4⟩ := allocV6Loop_ok isTaken rnd gp h6 h48 100 0 pfx h
    obtain ⟨s1, s2, s3⟩ := random64Addr_split gp (rnd k)
    subst hk3
    refine ⟨rfl, rfl, hk4, s1, s2, k, by omega, ?_⟩
    rw [s3, Nat.mod_eq_of_lt (hrnd k)]
  · intro hall
    exact allocV6Loop_err isTaken rnd gp h6 h48 100 0
      (fun k _ hk2 => hall k (by omega))

/-- A concrete canonical fd00::/48 unique-local prefix. -/
def pfx6gp0 : Pfx6 := Pfx6.mk (0xfd00 <<< 112) 48 true

/-- Witness for `ipam_allocate_v6_spec` at a concrete /48 with a fixed
draw and no collisions: the allocation returns the /64 with the drawn
subnet id and the /48 part intact. -/
theorem ipam_allocate_v6_spec_witness :
    pfx6gp0.is6 = true ∧ pfx6gp0.bits = 48 ∧
    (∀ k : Nat, (fun _ => 0x1234 : Nat → Nat) k < 2 ^ 16) ∧
    allocateV6core (fun _ => false) (fun _ => 0x1234) pfx6gp0 =
      .ok (Pfx6.mk (0xfd00 <<< 112 + 0x1234 * 2 ^ 64) 64 true) ∧
    (∀ pfx, allocateV6core (fun _ => false) (fun _ => 0x1234) pfx6gp0 = .ok pfx →
      pfx.bits = 64 ∧ pfx.is6 = true ∧ (fun _ => false : Pfx6 → Bool) pfx = false ∧
      pfx.addr >>> 80 = pfx6gp0.addr >>> 80 ∧
      pfx.addr % 2 ^ 64 = pfx6gp0.addr % 2 ^ 64 ∧
      ∃ k, k < 100 ∧ (pfx.addr >>> 64) % 2 ^ 16 = (fun _ => 0x1234 : Nat → Nat) k) :=
  ⟨rfl, rfl, fun _ => (by decide : (0x1234 : Nat) < 2 ^ 16), by decide,
    (ipam_allocate_v6_spec (fun _ => false) (fun _ => 0x1234) pfx6gp0
      rfl rfl (fun _ => (by decide : (0x1234 : Nat) < 2 ^ 16))).2.2.1⟩

end Webmesh
